import Mathlib

/-!
Verification of the server-side simulation of the multiplayer tag game
(`src/server.js`, the server-authoritative variant).

The embedding below translates the data model and the operations of the
game server into Lean: rooms, players, the fixed-step `update` tick
(controls, integration, world bounds, platform collision, respawn, tag
arbitration), the room registry and its socket handlers (`createRoom`,
`joinRoom`), and the room lifecycle operations (`addPlayer`,
`removePlayer`, `startGame`, input application).

Numbers are embedded as exact rationals (the JavaScript constants 0.6,
0.8, 0.85, 15, 6, 30 are all exactly representable, and every quantity
that arises in the concrete runs below is a terminating decimal, so the
rational embedding is exact for them).  `Math.random()` is abstracted:
`startGame` takes the chosen index as a parameter (reduced modulo the
player count) and `generateRoomId` takes the list of base-36 fraction
digits that `Math.random().toString(36)` would produce.
-/

set_option maxRecDepth 40000

namespace TagGame

/-- Game constants from the top of `src/server.js`. -/
def GRAVITY : ℚ := 0.6

/-- Jump impulse constant `JUMP_FORCE`. -/
def JUMP_FORCE : ℚ := -15

/-- Horizontal speed clamp constant `MOVE_SPEED`. -/
def MOVE_SPEED : ℚ := 6

/-- Friction multiplier constant `FRICTION`. -/
def FRICTION : ℚ := 0.85

/-- Player box size constant `PLAYER_SIZE`. -/
def PLAYER_SIZE : ℚ := 30

/-- Tag cooldown constant `TAG_COOLDOWN_FRAMES`. -/
def TAG_COOLDOWN_FRAMES : ℕ := 60

/-- Logical room width constant `ROOM_WIDTH`. -/
def ROOM_WIDTH : ℚ := 1200

/-- Logical room height constant `ROOM_HEIGHT`. -/
def ROOM_HEIGHT : ℚ := 800

/-- The fixed four-entry colour palette `COLORS`. -/
def COLORS : List String := ["#3b82f6", "#22c55e", "#eab308", "#a855f7"]

/-- An axis-aligned static platform rectangle. -/
structure Plat where
  x : ℚ
  y : ℚ
  width : ℚ
  height : ℚ
deriving DecidableEq

/-- The pending input intent of a player (`player.inputs`). -/
structure Inputs where
  up : Bool
  down : Bool
  left : Bool
  right : Bool
deriving DecidableEq

/-- Player state, mirroring the object literal built in `GameRoom.addPlayer`. -/
structure Player where
  id : String
  index : ℕ
  x : ℚ
  y : ℚ
  width : ℚ
  height : ℚ
  vx : ℚ
  vy : ℚ
  color : String
  isIt : Bool
  isGrounded : Bool
  facingRight : Bool
  tagCooldown : ℕ
  score : ℕ
  inputs : Inputs
deriving DecidableEq

/-- The platform layout built in the `GameRoom` constructor. -/
def defaultPlatforms : List Plat :=
  [ ⟨0, ROOM_HEIGHT - 40, ROOM_WIDTH, 40⟩,
    ⟨100, ROOM_HEIGHT - 150, 200, 20⟩,
    ⟨ROOM_WIDTH - 300, ROOM_HEIGHT - 150, 200, 20⟩,
    ⟨ROOM_WIDTH / 2 - 150, ROOM_HEIGHT - 280, 300, 20⟩,
    ⟨50, ROOM_HEIGHT - 400, 150, 20⟩,
    ⟨ROOM_WIDTH - 200, ROOM_HEIGHT - 400, 150, 20⟩,
    ⟨ROOM_WIDTH / 2 - 50, ROOM_HEIGHT - 520, 100, 20⟩ ]

/-- A game room: code, insertion-ordered player map, platforms, started flag.
The JavaScript `Map` is embedded as an insertion-ordered list keyed by `id`. -/
structure GameRoom where
  roomId : String
  players : List Player
  platforms : List Plat
  started : Bool
deriving DecidableEq

/-- A freshly constructed room (`new GameRoom(roomId)`). -/
def mkRoom (code : String) : GameRoom :=
  { roomId := code, players := [], platforms := defaultPlatforms, started := false }

/-- The `Map.set` semantics on the player list: replace in place if the key is
present, otherwise append. -/
def setPlayer : List Player → Player → List Player
  | [], q => [q]
  | p :: ps, q => if p.id = q.id then q :: ps else p :: setPlayer ps q

/-- The player object literal in `GameRoom.addPlayer` for slot `i`. -/
def newPlayer (sid : String) (i : ℕ) : Player :=
  { id := sid, index := i, x := 100 + (i : ℚ) * 100, y := 100,
    width := PLAYER_SIZE, height := PLAYER_SIZE, vx := 0, vy := 0,
    color := COLORS.getD i "", isIt := false, isGrounded := false,
    facingRight := true, tagCooldown := 0, score := 0,
    inputs := ⟨false, false, false, false⟩ }

/-- The method `GameRoom.addPlayer`: rejects at 4 players, otherwise inserts a player
whose slot index is the current player count. -/
def GameRoom.addPlayer (r : GameRoom) (sid : String) : Option Player × GameRoom :=
  if 4 ≤ r.players.length then (none, r)
  else
    let p := newPlayer sid r.players.length
    (some p, { r with players := setPlayer r.players p })

/-- The method `GameRoom.removePlayer`: deletes by key; when the room empties, `stop()`
runs (clearing the tick interval and resetting `started`). -/
def GameRoom.removePlayer (r : GameRoom) (sid : String) : GameRoom :=
  let ps := r.players.filter (fun p => p.id ≠ sid)
  if ps.length = 0 then { r with players := ps, started := false }
  else { r with players := ps }

/-- Set `isIt := true` on the player at a given position. -/
def setItAt : List Player → ℕ → List Player
  | [], _ => []
  | p :: ps, 0 => { p with isIt := true } :: ps
  | p :: ps, Nat.succ n => p :: setItAt ps n

/-- The method `GameRoom.startGame`: a no-op when already started; otherwise marks the
room started and makes one current player It.  The uniformly random pick
`Math.floor(Math.random() * pArray.length)` is abstracted as `k % length`. -/
def GameRoom.startGame (r : GameRoom) (k : ℕ) : GameRoom :=
  if r.started then r
  else
    let ps := if 0 < r.players.length then setItAt r.players (k % r.players.length)
              else r.players
    { r with started := true, players := ps }

/-- The `socket.on("input")` handler body: overwrite the pending inputs of the
player with the given connection id, if present. -/
def GameRoom.applyInput (r : GameRoom) (sid : String) (inp : Inputs) : GameRoom :=
  { r with players := r.players.map (fun p => if p.id = sid then { p with inputs := inp } else p) }

/-- Horizontal control step (`update`, part 1): left/right acceleration. -/
def leftCtrl (p : Player) : Player :=
  if p.inputs.left then { p with vx := p.vx - 0.8, facingRight := false } else p

/-- Rightward control half of part 1. -/
def rightCtrl (p : Player) : Player :=
  if p.inputs.right then { p with vx := p.vx + 0.8, facingRight := true } else p

/-- Jump control: only when grounded. -/
def jumpCtrl (p : Player) : Player :=
  if p.inputs.up && p.isGrounded then { p with vy := JUMP_FORCE, isGrounded := false } else p

/-- All of control handling, in source order. -/
def controlPhase (p : Player) : Player :=
  jumpCtrl (rightCtrl (leftCtrl p))

/-- Physics integration (`update`, part 2): gravity, friction, clamp, move. -/
def integratePhase (p : Player) : Player :=
  let vy := p.vy + GRAVITY
  let vx0 := p.vx * FRICTION
  let vx1 := if vx0 > MOVE_SPEED then MOVE_SPEED else vx0
  let vx2 := if vx1 < -MOVE_SPEED then -MOVE_SPEED else vx1
  { p with vy := vy, vx := vx2, x := p.x + vx2, y := p.y + vy }

/-- World bounds (`update`, part 3): clamp `x`, zeroing `vx` on clamp. -/
def boundaryPhase (p : Player) : Player :=
  let p1 := if p.x < 0 then { p with x := 0, vx := 0 } else p
  if p1.x + p1.width > ROOM_WIDTH then { p1 with x := ROOM_WIDTH - p1.width, vx := 0 } else p1

/-- The axis-aligned box overlap test between a player and a platform. -/
def platOverlap (p : Player) (plat : Plat) : Prop :=
  p.x < plat.x + plat.width ∧ p.x + p.width > plat.x ∧
  p.y < plat.y + plat.height ∧ p.y + p.height > plat.y

instance (p : Player) (plat : Plat) : Decidable (platOverlap p plat) := by
  unfold platOverlap; infer_instance

/-- Collision resolution against one platform (`update`, part 4): minimum
penetration among the four sides, in the source's tie-breaking order. -/
def collideOne (p : Player) (plat : Plat) : Player :=
  if platOverlap p plat then
    let distL := (p.x + p.width) - plat.x
    let distR := (plat.x + plat.width) - p.x
    let distT := (p.y + p.height) - plat.y
    let distB := (plat.y + plat.height) - p.y
    let m := min (min distL distR) (min distT distB)
    if m = distT then
      (if p.vy ≥ 0 then { p with y := plat.y - p.height, vy := 0, isGrounded := true } else p)
    else if m = distB then
      (if p.vy < 0 then { p with y := plat.y + plat.height, vy := 0 } else p)
    else if m = distL then { p with x := plat.x - p.width, vx := 0 }
    else if m = distR then { p with x := plat.x + plat.width, vx := 0 }
    else p
  else p

/-- Platform collision phase: reset `isGrounded`, then resolve against every
platform sequentially in iteration order. -/
def collidePhase (plats : List Plat) (p : Player) : Player :=
  plats.foldl collideOne { p with isGrounded := false }

/-- Respawn check (`update`, after collisions): fell off the bottom. -/
def respawnPhase (p : Player) : Player :=
  if p.y > ROOM_HEIGHT then { p with y := 0, x := ROOM_WIDTH / 2, vy := 0 } else p

/-- The whole per-player physics pipeline of one tick, in source order. -/
def physStep (plats : List Plat) (p : Player) : Player :=
  respawnPhase (collidePhase plats (boundaryPhase (integratePhase (controlPhase p))))

/-- The axis-aligned box overlap test between two players (tag logic). -/
def playersOverlap (p other : Player) : Prop :=
  p.x < other.x + other.width ∧ p.x + p.width > other.x ∧
  p.y < other.y + other.height ∧ p.y + p.height > other.y

instance (p q : Player) : Decidable (playersOverlap p q) := by
  unfold playersOverlap; infer_instance

/-- The `Math.sign` function. -/
def jsSign (d : ℚ) : ℚ := if d > 0 then 1 else if d < 0 then -1 else 0

/-- One iteration of the inner tag loop (`update`, part 5) for the outer
player at position `i` against the inner player at position `j`: skip self
(by id, as the source does), decrement the outer player's positive cooldown,
then attempt the tag transfer with its separating impulse. -/
def tagPair (l : List Player) (i j : ℕ) : List Player :=
  match l[i]?, l[j]? with
  | some p0, some other =>
    if p0.id = other.id then l
    else
      let p := if p0.tagCooldown > 0 then { p0 with tagCooldown := p0.tagCooldown - 1 } else p0
      let l1 := l.set i p
      if playersOverlap p other then
        if p.isIt = true ∧ other.isIt = false ∧ p.tagCooldown = 0 ∧ other.tagCooldown = 0 then
          let s := jsSign (other.x - p.x)
          let dirX := if s = 0 then 1 else s
          let p1 := { p with isIt := false, vx := -dirX * 5, tagCooldown := TAG_COOLDOWN_FRAMES }
          let other1 := { other with
              isIt := true, vx := dirX * 10, vy := -5,
              tagCooldown := TAG_COOLDOWN_FRAMES }
          (l1.set i p1).set j other1
        else l1
      else l1
  | _, _ => l

/-- The inner tag loop for outer position `i`, over the fixed-length snapshot
of the player array. -/
def tagLoop (n : ℕ) (l : List Player) (i : ℕ) : List Player :=
  (List.range n).foldl (fun acc j => tagPair acc i j) l

/-- The body of the outer `forEach` of `GameRoom.update` for position `i`:
physics for the player at `i`, then that player's tag loop. -/
def updateBody (plats : List Plat) (n : ℕ) (l : List Player) (i : ℕ) : List Player :=
  let l1 := match l[i]? with
    | some p => l.set i (physStep plats p)
    | none => l
  tagLoop n l1 i

/-- The method `GameRoom.update`: one fixed tick over the snapshot array. -/
def GameRoom.update (r : GameRoom) : GameRoom :=
  let n := r.players.length
  { r with players := (List.range n).foldl (updateBody r.platforms n) r.players }

/-- Iterated ticks. -/
def updateN : ℕ → GameRoom → GameRoom
  | 0, r => r
  | Nat.succ n, r => (updateN n r).update

/-- Number of players currently marked It. -/
def itCount (r : GameRoom) : ℕ := r.players.countP (fun p => p.isIt)

/-- The room registry (`rooms` map), as an insertion-ordered association list. -/
abbrev Registry := List (String × GameRoom)

/-- The `Map.set` operation on the registry. -/
def regSet : Registry → String → GameRoom → Registry
  | [], c, g => [(c, g)]
  | (c', g') :: rest, c, g =>
      if c' = c then (c, g) :: rest else (c', g') :: regSet rest c g

/-- The `Map.get` operation on the registry. -/
def regGet : Registry → String → Option GameRoom
  | [], _ => none
  | (c', g') :: rest, c => if c' = c then some g' else regGet rest c

/-- The helper `generateRoomId`, with `Math.random()` abstracted: `digits` is the list of
base-36 fraction digits that `Math.random().toString(36)` produces after the
leading `"0."` (trailing zeros trimmed, so possibly fewer than 4 digits).
`substring(2, 6)` keeps at most the first four of them; then uppercase. -/
def generateRoomId (digits : List Char) : String :=
  String.mk ((digits.take 4).map Char.toUpper)

/-- The `socket.on("createRoom")` handler: generate a code, create a room,
store it (silently replacing any room already stored under that code), add
the creating connection, and acknowledge with the code. -/
def createRoom (reg : Registry) (digits : List Char) (sid : String) :
    String × Registry :=
  let code := generateRoomId digits
  let room := mkRoom code
  let reg1 := regSet reg code room
  let room1 := (room.addPlayer sid).2
  (code, regSet reg1 code room1)

/-- The outcome `joinRoom` signals back to the originating connection. -/
inductive JoinOutcome where
  | joined (code : String)
  | err (msg : String)
deriving DecidableEq

/-- The `socket.on("joinRoom")` handler: look up the room; if absent or at 4
players emit the single combined error string; otherwise add the player and
auto-start once at least two players are present (`k` abstracts the random
It pick inside `startGame`). -/
def joinRoom (reg : Registry) (code : String) (sid : String) (k : ℕ) :
    JoinOutcome × Registry :=
  match regGet reg code with
  | some room =>
    if room.players.length < 4 then
      let room1 := (room.addPlayer sid).2
      let room2 := if 2 ≤ room1.players.length ∧ room1.started = false
                   then room1.startGame k else room1
      (JoinOutcome.joined code, regSet reg code room2)
    else (JoinOutcome.err "Room not found or full", reg)
  | none => (JoinOutcome.err "Room not found or full", reg)

/-- The room-level operations a network trace can apply to one room:
join, disconnect/leave, start, input, and a scheduler tick. -/
inductive RoomOp where
  | add (sid : String)
  | remove (sid : String)
  | start (k : ℕ)
  | input (sid : String) (inp : Inputs)
  | tick

/-- Apply one operation to a room. -/
def applyOp (r : GameRoom) : RoomOp → GameRoom
  | RoomOp.add sid => (r.addPlayer sid).2
  | RoomOp.remove sid => r.removePlayer sid
  | RoomOp.start k => r.startGame k
  | RoomOp.input sid inp => r.applyInput sid inp
  | RoomOp.tick => r.update

/-- Run a sequence of operations from a given room state. -/
def runOps (r : GameRoom) (ops : List RoomOp) : GameRoom := ops.foldl applyOp r


/-! ### Concrete scenario states used by the counterexamples and bug witnesses -/

/-- Helper to build a concrete player with the given position, It status,
cooldown and pending input (all other fields as `addPlayer` initialises them). -/
def mkTestPlayer (pid : String) (i : ℕ) (px py : ℚ) (it : Bool) (cd : ℕ) (inp : Inputs) : Player :=
  { id := pid, index := i, x := px, y := py, width := 30, height := 30, vx := 0, vy := 0,
    color := "c", isIt := it, isGrounded := false, facingRight := true,
    tagCooldown := cd, score := 0, inputs := inp }

/-- No keys held. -/
def noInput : Inputs := ⟨false, false, false, false⟩

/-- Only the left key held. -/
def leftInput : Inputs := ⟨false, false, true, false⟩

/-- The spec scenario for claim C2: a started two-player room, A It with
cooldown 0, B not It with cooldown 0, both stationary mid-air at the same
position so their boxes exactly overlap at the start of the tick. -/
def c2room : GameRoom :=
  { roomId := "R", players := [mkTestPlayer "A" 0 100 100 true 0 noInput,
                               mkTestPlayer "B" 1 100 100 false 0 noInput],
    platforms := defaultPlatforms, started := true }

/-- The failing input for claim C3: a started three-player room whose players
are pairwise far apart; player A has `tagCooldown = 10`. -/
def c3room : GameRoom :=
  { roomId := "R", players := [mkTestPlayer "A" 0 100 100 false 10 noInput,
                               mkTestPlayer "B" 1 300 100 false 0 noInput,
                               mkTestPlayer "C" 2 500 100 false 0 noInput],
    platforms := defaultPlatforms, started := true }

/-- The failing input for claim C4: a started three-player room.  A (It) and
B rest on the ground platform at the left wall, both holding the left key so
that they stay pressed together; C stands far away at the room centre.	A tag
fires on the first tick, and the pair keeps overlapping on every tick of the
run. -/
def c4room : GameRoom :=
  { roomId := "R", players := [mkTestPlayer "A" 0 0 730 true 0 leftInput,
                               mkTestPlayer "B" 1 0 730 false 0 leftInput,
                               mkTestPlayer "C" 2 600 730 false 0 noInput],
    platforms := defaultPlatforms, started := true }

/-- Exact state of the C4 run after tick 1. -/
def c4s1 : GameRoom :=
  { roomId := "R", started := true, platforms := defaultPlatforms,
    players :=
      [ { id := "A", index := 0, x := 0, y := 730, width := 30, height := 30, vx := (-5), vy := 0, color := "c", isIt := false, isGrounded := true, facingRight := false, tagCooldown := 59, score := 0, inputs := leftInput },
        { id := "B", index := 1, x := 6, y := 725.6, width := 30, height := 30, vx := 6, vy := (-4.4), color := "c", isIt := true, isGrounded := false, facingRight := false, tagCooldown := 58, score := 0, inputs := leftInput },
        { id := "C", index := 2, x := 600, y := 730, width := 30, height := 30, vx := 0, vy := 0, color := "c", isIt := false, isGrounded := true, facingRight := true, tagCooldown := 0, score := 0, inputs := noInput } ] }

unseal Rat.ofScientific Rat.mul Rat.add Rat.sub Rat.inv in
/-- Tick 1 of the C4 run, evaluated. -/
lemma c4t1 : GameRoom.update c4room = c4s1 := by
  decide

/-- Exact state of the C4 run after tick 2. -/
def c4s2 : GameRoom :=
  { roomId := "R", started := true, platforms := defaultPlatforms,
    players :=
      [ { id := "A", index := 0, x := 0, y := 730, width := 30, height := 30, vx := 0, vy := 0, color := "c", isIt := false, isGrounded := true, facingRight := false, tagCooldown := 57, score := 0, inputs := leftInput },
        { id := "B", index := 1, x := 10.42, y := 721.8, width := 30, height := 30, vx := 4.42, vy := (-3.8), color := "c", isIt := true, isGrounded := false, facingRight := false, tagCooldown := 56, score := 0, inputs := leftInput },
        { id := "C", index := 2, x := 600, y := 730, width := 30, height := 30, vx := 0, vy := 0, color := "c", isIt := false, isGrounded := true, facingRight := true, tagCooldown := 0, score := 0, inputs := noInput } ] }

unseal Rat.ofScientific Rat.mul Rat.add Rat.sub Rat.inv in
/-- Tick 2 of the C4 run, evaluated. -/
lemma c4t2 : GameRoom.update c4s1 = c4s2 := by
  decide

/-- Exact state of the C4 run after tick 3. -/
def c4s3 : GameRoom :=
  { roomId := "R", started := true, platforms := defaultPlatforms,
    players :=
      [ { id := "A", index := 0, x := 0, y := 730, width := 30, height := 30, vx := 0, vy := 0, color := "c", isIt := false, isGrounded := true, facingRight := false, tagCooldown := 55, score := 0, inputs := leftInput },
        { id := "B", index := 1, x := 13.497, y := 718.6, width := 30, height := 30, vx := 3.077, vy := (-3.2), color := "c", isIt := true, isGrounded := false, facingRight := false, tagCooldown := 54, score := 0, inputs := leftInput },
        { id := "C", index := 2, x := 600, y := 730, width := 30, height := 30, vx := 0, vy := 0, color := "c", isIt := false, isGrounded := true, facingRight := true, tagCooldown := 0, score := 0, inputs := noInput } ] }

unseal Rat.ofScientific Rat.mul Rat.add Rat.sub Rat.inv in
/-- Tick 3 of the C4 run, evaluated. -/
lemma c4t3 : GameRoom.update c4s2 = c4s3 := by
  decide

/-- Exact state of the C4 run after tick 4. -/
def c4s4 : GameRoom :=
  { roomId := "R", started := true, platforms := defaultPlatforms,
    players :=
      [ { id := "A", index := 0, x := 0, y := 730, width := 30, height := 30, vx := 0, vy := 0, color := "c", isIt := false, isGrounded := true, facingRight := false, tagCooldown := 53, score := 0, inputs := leftInput },
        { id := "B", index := 1, x := 15.43245, y := 716, width := 30, height := 30, vx := 1.93545, vy := (-2.6), color := "c", isIt := true, isGrounded := false, facingRight := false, tagCooldown := 52, score := 0, inputs := leftInput },
        { id := "C", index := 2, x := 600, y := 730, width := 30, height := 30, vx := 0, vy := 0, color := "c", isIt := false, isGrounded := true, facingRight := true, tagCooldown := 0, score := 0, inputs := noInput } ] }

unseal Rat.ofScientific Rat.mul Rat.add Rat.sub Rat.inv in
/-- Tick 4 of the C4 run, evaluated. -/
lemma c4t4 : GameRoom.update c4s3 = c4s4 := by
  decide

/-- Exact state of the C4 run after tick 5. -/
def c4s5 : GameRoom :=
  { roomId := "R", started := true, platforms := defaultPlatforms,
    players :=
      [ { id := "A", index := 0, x := 0, y := 730, width := 30, height := 30, vx := 0, vy := 0, color := "c", isIt := false, isGrounded := true, facingRight := false, tagCooldown := 51, score := 0, inputs := leftInput },
        { id := "B", index := 1, x := 16.3975825, y := 714, width := 30, height := 30, vx := 0.9651325, vy := (-2), color := "c", isIt := true, isGrounded := false, facingRight := false, tagCooldown := 50, score := 0, inputs := leftInput },
        { id := "C", index := 2, x := 600, y := 730, width := 30, height := 30, vx := 0, vy := 0, color := "c", isIt := false, isGrounded := true, facingRight := true, tagCooldown := 0, score := 0, inputs := noInput } ] }

unseal Rat.ofScientific Rat.mul Rat.add Rat.sub Rat.inv in
/-- Tick 5 of the C4 run, evaluated. -/
lemma c4t5 : GameRoom.update c4s4 = c4s5 := by
  decide

/-- Exact state of the C4 run after tick 6. -/
def c4s6 : GameRoom :=
  { roomId := "R", started := true, platforms := defaultPlatforms,
    players :=
      [ { id := "A", index := 0, x := 0, y := 730, width := 30, height := 30, vx := 0, vy := 0, color := "c", isIt := false, isGrounded := true, facingRight := false, tagCooldown := 49, score := 0, inputs := leftInput },
        { id := "B", index := 1, x := 16.537945125, y := 712.6, width := 30, height := 30, vx := 0.140362625, vy := (-1.4), color := "c", isIt := true, isGrounded := false, facingRight := false, tagCooldown := 48, score := 0, inputs := leftInput },
        { id := "C", index := 2, x := 600, y := 730, width := 30, height := 30, vx := 0, vy := 0, color := "c", isIt := false, isGrounded := true, facingRight := true, tagCooldown := 0, score := 0, inputs := noInput } ] }

unseal Rat.ofScientific Rat.mul Rat.add Rat.sub Rat.inv in
/-- Tick 6 of the C4 run, evaluated. -/
lemma c4t6 : GameRoom.update c4s5 = c4s6 := by
  decide

/-- Exact state of the C4 run after tick 7. -/
def c4s7 : GameRoom :=
  { roomId := "R", started := true, platforms := defaultPlatforms,
    players :=
      [ { id := "A", index := 0, x := 0, y := 730, width := 30, height := 30, vx := 0, vy := 0, color := "c", isIt := false, isGrounded := true, facingRight := false, tagCooldown := 47, score := 0, inputs := leftInput },
        { id := "B", index := 1, x := 15.97725335625, y := 711.8, width := 30, height := 30, vx := (-0.56069176875), vy := (-0.8), color := "c", isIt := true, isGrounded := false, facingRight := false, tagCooldown := 46, score := 0, inputs := leftInput },
        { id := "C", index := 2, x := 600, y := 730, width := 30, height := 30, vx := 0, vy := 0, color := "c", isIt := false, isGrounded := true, facingRight := true, tagCooldown := 0, score := 0, inputs := noInput } ] }

unseal Rat.ofScientific Rat.mul Rat.add Rat.sub Rat.inv in
/-- Tick 7 of the C4 run, evaluated. -/
lemma c4t7 : GameRoom.update c4s6 = c4s7 := by
  decide

/-- Exact state of the C4 run after tick 8. -/
def c4s8 : GameRoom :=
  { roomId := "R", started := true, platforms := defaultPlatforms,
    players :=
      [ { id := "A", index := 0, x := 0, y := 730, width := 30, height := 30, vx := 0, vy := 0, color := "c", isIt := false, isGrounded := true, facingRight := false, tagCooldown := 45, score := 0, inputs := leftInput },
        { id := "B", index := 1, x := 14.8206653528125, y := 711.6, width := 30, height := 30, vx := (-1.1565880034375), vy := (-0.2), color := "c", isIt := true, isGrounded := false, facingRight := false, tagCooldown := 44, score := 0, inputs := leftInput },
        { id := "C", index := 2, x := 600, y := 730, width := 30, height := 30, vx := 0, vy := 0, color := "c", isIt := false, isGrounded := true, facingRight := true, tagCooldown := 0, score := 0, inputs := noInput } ] }

unseal Rat.ofScientific Rat.mul Rat.add Rat.sub Rat.inv in
/-- Tick 8 of the C4 run, evaluated. -/
lemma c4t8 : GameRoom.update c4s7 = c4s8 := by
  decide

/-- Exact state of the C4 run after tick 9. -/
def c4s9 : GameRoom :=
  { roomId := "R", started := true, platforms := defaultPlatforms,
    players :=
      [ { id := "A", index := 0, x := 0, y := 730, width := 30, height := 30, vx := 0, vy := 0, color := "c", isIt := false, isGrounded := true, facingRight := false, tagCooldown := 43, score := 0, inputs := leftInput },
        { id := "B", index := 1, x := 13.157565549890625, y := 712, width := 30, height := 30, vx := (-1.663099802921875), vy := 0.4, color := "c", isIt := true, isGrounded := false, facingRight := false, tagCooldown := 42, score := 0, inputs := leftInput },
        { id := "C", index := 2, x := 600, y := 730, width := 30, height := 30, vx := 0, vy := 0, color := "c", isIt := false, isGrounded := true, facingRight := true, tagCooldown := 0, score := 0, inputs := noInput } ] }

unseal Rat.ofScientific Rat.mul Rat.add Rat.sub Rat.inv in
/-- Tick 9 of the C4 run, evaluated. -/
lemma c4t9 : GameRoom.update c4s8 = c4s9 := by
  decide

/-- Exact state of the C4 run after tick 10. -/
def c4s10 : GameRoom :=
  { roomId := "R", started := true, platforms := defaultPlatforms,
    players :=
      [ { id := "A", index := 0, x := 0, y := 730, width := 30, height := 30, vx := 0, vy := 0, color := "c", isIt := false, isGrounded := true, facingRight := false, tagCooldown := 41, score := 0, inputs := leftInput },
        { id := "B", index := 1, x := 11.06393071740703125, y := 713, width := 30, height := 30, vx := (-2.09363483248359375), vy := 1, color := "c", isIt := true, isGrounded := false, facingRight := false, tagCooldown := 40, score := 0, inputs := leftInput },
        { id := "C", index := 2, x := 600, y := 730, width := 30, height := 30, vx := 0, vy := 0, color := "c", isIt := false, isGrounded := true, facingRight := true, tagCooldown := 0, score := 0, inputs := noInput } ] }

unseal Rat.ofScientific Rat.mul Rat.add Rat.sub Rat.inv in
/-- Tick 10 of the C4 run, evaluated. -/
lemma c4t10 : GameRoom.update c4s9 = c4s10 := by
  decide

/-- Exact state of the C4 run after tick 11. -/
def c4s11 : GameRoom :=
  { roomId := "R", started := true, platforms := defaultPlatforms,
    players :=
      [ { id := "A", index := 0, x := 0, y := 730, width := 30, height := 30, vx := 0, vy := 0, color := "c", isIt := false, isGrounded := true, facingRight := false, tagCooldown := 39, score := 0, inputs := leftInput },
        { id := "B", index := 1, x := 8.6043411097959765625, y := 714.6, width := 30, height := 30, vx := (-2.4595896076110546875), vy := 1.6, color := "c", isIt := true, isGrounded := false, facingRight := false, tagCooldown := 38, score := 0, inputs := leftInput },
        { id := "C", index := 2, x := 600, y := 730, width := 30, height := 30, vx := 0, vy := 0, color := "c", isIt := false, isGrounded := true, facingRight := true, tagCooldown := 0, score := 0, inputs := noInput } ] }

unseal Rat.ofScientific Rat.mul Rat.add Rat.sub Rat.inv in
/-- Tick 11 of the C4 run, evaluated. -/
lemma c4t11 : GameRoom.update c4s10 = c4s11 := by
  decide

/-- Exact state of the C4 run after tick 12. -/
def c4s12 : GameRoom :=
  { roomId := "R", started := true, platforms := defaultPlatforms,
    players :=
      [ { id := "A", index := 0, x := 0, y := 730, width := 30, height := 30, vx := 0, vy := 0, color := "c", isIt := false, isGrounded := true, facingRight := false, tagCooldown := 37, score := 0, inputs := leftInput },
        { id := "B", index := 1, x := 5.833689943326580078125, y := 716.8, width := 30, height := 30, vx := (-2.770651166469396484375), vy := 2.2, color := "c", isIt := true, isGrounded := false, facingRight := false, tagCooldown := 36, score := 0, inputs := leftInput },
        { id := "C", index := 2, x := 600, y := 730, width := 30, height := 30, vx := 0, vy := 0, color := "c", isIt := false, isGrounded := true, facingRight := true, tagCooldown := 0, score := 0, inputs := noInput } ] }

unseal Rat.ofScientific Rat.mul Rat.add Rat.sub Rat.inv in
/-- Tick 12 of the C4 run, evaluated. -/
lemma c4t12 : GameRoom.update c4s11 = c4s12 := by
  decide

/-- Exact state of the C4 run after tick 13. -/
def c4s13 : GameRoom :=
  { roomId := "R", started := true, platforms := defaultPlatforms,
    players :=
      [ { id := "A", index := 0, x := 0, y := 730, width := 30, height := 30, vx := 0, vy := 0, color := "c", isIt := false, isGrounded := true, facingRight := false, tagCooldown := 35, score := 0, inputs := leftInput },
        { id := "B", index := 1, x := 2.79863645182759306640625, y := 719.6, width := 30, height := 30, vx := (-3.03505349149898701171875), vy := 2.8, color := "c", isIt := true, isGrounded := false, facingRight := false, tagCooldown := 34, score := 0, inputs := leftInput },
        { id := "C", index := 2, x := 600, y := 730, width := 30, height := 30, vx := 0, vy := 0, color := "c", isIt := false, isGrounded := true, facingRight := true, tagCooldown := 0, score := 0, inputs := noInput } ] }

unseal Rat.ofScientific Rat.mul Rat.add Rat.sub Rat.inv in
/-- Tick 13 of the C4 run, evaluated. -/
lemma c4t13 : GameRoom.update c4s12 = c4s13 := by
  decide

/-- Exact state of the C4 run after tick 14. -/
def c4s14 : GameRoom :=
  { roomId := "R", started := true, platforms := defaultPlatforms,
    players :=
      [ { id := "A", index := 0, x := 0, y := 730, width := 30, height := 30, vx := 0, vy := 0, color := "c", isIt := false, isGrounded := true, facingRight := false, tagCooldown := 33, score := 0, inputs := leftInput },
        { id := "B", index := 1, x := 0, y := 723, width := 30, height := 30, vx := 0, vy := 3.4, color := "c", isIt := true, isGrounded := false, facingRight := false, tagCooldown := 32, score := 0, inputs := leftInput },
        { id := "C", index := 2, x := 600, y := 730, width := 30, height := 30, vx := 0, vy := 0, color := "c", isIt := false, isGrounded := true, facingRight := true, tagCooldown := 0, score := 0, inputs := noInput } ] }

unseal Rat.ofScientific Rat.mul Rat.add Rat.sub Rat.inv in
/-- Tick 14 of the C4 run, evaluated. -/
lemma c4t14 : GameRoom.update c4s13 = c4s14 := by
  decide

/-- Exact state of the C4 run after tick 15. -/
def c4s15 : GameRoom :=
  { roomId := "R", started := true, platforms := defaultPlatforms,
    players :=
      [ { id := "A", index := 0, x := 0, y := 730, width := 30, height := 30, vx := 0, vy := 0, color := "c", isIt := false, isGrounded := true, facingRight := false, tagCooldown := 31, score := 0, inputs := leftInput },
        { id := "B", index := 1, x := 0, y := 727, width := 30, height := 30, vx := 0, vy := 4, color := "c", isIt := true, isGrounded := false, facingRight := false, tagCooldown := 30, score := 0, inputs := leftInput },
        { id := "C", index := 2, x := 600, y := 730, width := 30, height := 30, vx := 0, vy := 0, color := "c", isIt := false, isGrounded := true, facingRight := true, tagCooldown := 0, score := 0, inputs := noInput } ] }

unseal Rat.ofScientific Rat.mul Rat.add Rat.sub Rat.inv in
/-- Tick 15 of the C4 run, evaluated. -/
lemma c4t15 : GameRoom.update c4s14 = c4s15 := by
  decide

/-- Exact state of the C4 run after tick 16. -/
def c4s16 : GameRoom :=
  { roomId := "R", started := true, platforms := defaultPlatforms,
    players :=
      [ { id := "A", index := 0, x := 0, y := 730, width := 30, height := 30, vx := 0, vy := 0, color := "c", isIt := false, isGrounded := true, facingRight := false, tagCooldown := 29, score := 0, inputs := leftInput },
        { id := "B", index := 1, x := 0, y := 730, width := 30, height := 30, vx := 0, vy := 0, color := "c", isIt := true, isGrounded := true, facingRight := false, tagCooldown := 28, score := 0, inputs := leftInput },
        { id := "C", index := 2, x := 600, y := 730, width := 30, height := 30, vx := 0, vy := 0, color := "c", isIt := false, isGrounded := true, facingRight := true, tagCooldown := 0, score := 0, inputs := noInput } ] }

unseal Rat.ofScientific Rat.mul Rat.add Rat.sub Rat.inv in
/-- Tick 16 of the C4 run, evaluated. -/
lemma c4t16 : GameRoom.update c4s15 = c4s16 := by
  decide

/-- Exact state of the C4 run after tick 17. -/
def c4s17 : GameRoom :=
  { roomId := "R", started := true, platforms := defaultPlatforms,
    players :=
      [ { id := "A", index := 0, x := 0, y := 730, width := 30, height := 30, vx := 0, vy := 0, color := "c", isIt := false, isGrounded := true, facingRight := false, tagCooldown := 27, score := 0, inputs := leftInput },
        { id := "B", index := 1, x := 0, y := 730, width := 30, height := 30, vx := 0, vy := 0, color := "c", isIt := true, isGrounded := true, facingRight := false, tagCooldown := 26, score := 0, inputs := leftInput },
        { id := "C", index := 2, x := 600, y := 730, width := 30, height := 30, vx := 0, vy := 0, color := "c", isIt := false, isGrounded := true, facingRight := true, tagCooldown := 0, score := 0, inputs := noInput } ] }

unseal Rat.ofScientific Rat.mul Rat.add Rat.sub Rat.inv in
/-- Tick 17 of the C4 run, evaluated. -/
lemma c4t17 : GameRoom.update c4s16 = c4s17 := by
  decide

/-- Exact state of the C4 run after tick 18. -/
def c4s18 : GameRoom :=
  { roomId := "R", started := true, platforms := defaultPlatforms,
    players :=
      [ { id := "A", index := 0, x := 0, y := 730, width := 30, height := 30, vx := 0, vy := 0, color := "c", isIt := false, isGrounded := true, facingRight := false, tagCooldown := 25, score := 0, inputs := leftInput },
        { id := "B", index := 1, x := 0, y := 730, width := 30, height := 30, vx := 0, vy := 0, color := "c", isIt := true, isGrounded := true, facingRight := false, tagCooldown := 24, score := 0, inputs := leftInput },
        { id := "C", index := 2, x := 600, y := 730, width := 30, height := 30, vx := 0, vy := 0, color := "c", isIt := false, isGrounded := true, facingRight := true, tagCooldown := 0, score := 0, inputs := noInput } ] }

unseal Rat.ofScientific Rat.mul Rat.add Rat.sub Rat.inv in
/-- Tick 18 of the C4 run, evaluated. -/
lemma c4t18 : GameRoom.update c4s17 = c4s18 := by
  decide

/-- Exact state of the C4 run after tick 19. -/
def c4s19 : GameRoom :=
  { roomId := "R", started := true, platforms := defaultPlatforms,
    players :=
      [ { id := "A", index := 0, x := 0, y := 730, width := 30, height := 30, vx := 0, vy := 0, color := "c", isIt := false, isGrounded := true, facingRight := false, tagCooldown := 23, score := 0, inputs := leftInput },
        { id := "B", index := 1, x := 0, y := 730, width := 30, height := 30, vx := 0, vy := 0, color := "c", isIt := true, isGrounded := true, facingRight := false, tagCooldown := 22, score := 0, inputs := leftInput },
        { id := "C", index := 2, x := 600, y := 730, width := 30, height := 30, vx := 0, vy := 0, color := "c", isIt := false, isGrounded := true, facingRight := true, tagCooldown := 0, score := 0, inputs := noInput } ] }

unseal Rat.ofScientific Rat.mul Rat.add Rat.sub Rat.inv in
/-- Tick 19 of the C4 run, evaluated. -/
lemma c4t19 : GameRoom.update c4s18 = c4s19 := by
  decide

/-- Exact state of the C4 run after tick 20. -/
def c4s20 : GameRoom :=
  { roomId := "R", started := true, platforms := defaultPlatforms,
    players :=
      [ { id := "A", index := 0, x := 0, y := 730, width := 30, height := 30, vx := 0, vy := 0, color := "c", isIt := false, isGrounded := true, facingRight := false, tagCooldown := 21, score := 0, inputs := leftInput },
        { id := "B", index := 1, x := 0, y := 730, width := 30, height := 30, vx := 0, vy := 0, color := "c", isIt := true, isGrounded := true, facingRight := false, tagCooldown := 20, score := 0, inputs := leftInput },
        { id := "C", index := 2, x := 600, y := 730, width := 30, height := 30, vx := 0, vy := 0, color := "c", isIt := false, isGrounded := true, facingRight := true, tagCooldown := 0, score := 0, inputs := noInput } ] }

unseal Rat.ofScientific Rat.mul Rat.add Rat.sub Rat.inv in
/-- Tick 20 of the C4 run, evaluated. -/
lemma c4t20 : GameRoom.update c4s19 = c4s20 := by
  decide

/-- Exact state of the C4 run after tick 21. -/
def c4s21 : GameRoom :=
  { roomId := "R", started := true, platforms := defaultPlatforms,
    players :=
      [ { id := "A", index := 0, x := 0, y := 730, width := 30, height := 30, vx := 0, vy := 0, color := "c", isIt := false, isGrounded := true, facingRight := false, tagCooldown := 19, score := 0, inputs := leftInput },
        { id := "B", index := 1, x := 0, y := 730, width := 30, height := 30, vx := 0, vy := 0, color := "c", isIt := true, isGrounded := true, facingRight := false, tagCooldown := 18, score := 0, inputs := leftInput },
        { id := "C", index := 2, x := 600, y := 730, width := 30, height := 30, vx := 0, vy := 0, color := "c", isIt := false, isGrounded := true, facingRight := true, tagCooldown := 0, score := 0, inputs := noInput } ] }

unseal Rat.ofScientific Rat.mul Rat.add Rat.sub Rat.inv in
/-- Tick 21 of the C4 run, evaluated. -/
lemma c4t21 : GameRoom.update c4s20 = c4s21 := by
  decide

/-- Exact state of the C4 run after tick 22. -/
def c4s22 : GameRoom :=
  { roomId := "R", started := true, platforms := defaultPlatforms,
    players :=
      [ { id := "A", index := 0, x := 0, y := 730, width := 30, height := 30, vx := 0, vy := 0, color := "c", isIt := false, isGrounded := true, facingRight := false, tagCooldown := 17, score := 0, inputs := leftInput },
        { id := "B", index := 1, x := 0, y := 730, width := 30, height := 30, vx := 0, vy := 0, color := "c", isIt := true, isGrounded := true, facingRight := false, tagCooldown := 16, score := 0, inputs := leftInput },
        { id := "C", index := 2, x := 600, y := 730, width := 30, height := 30, vx := 0, vy := 0, color := "c", isIt := false, isGrounded := true, facingRight := true, tagCooldown := 0, score := 0, inputs := noInput } ] }

unseal Rat.ofScientific Rat.mul Rat.add Rat.sub Rat.inv in
/-- Tick 22 of the C4 run, evaluated. -/
lemma c4t22 : GameRoom.update c4s21 = c4s22 := by
  decide

/-- Exact state of the C4 run after tick 23. -/
def c4s23 : GameRoom :=
  { roomId := "R", started := true, platforms := defaultPlatforms,
    players :=
      [ { id := "A", index := 0, x := 0, y := 730, width := 30, height := 30, vx := 0, vy := 0, color := "c", isIt := false, isGrounded := true, facingRight := false, tagCooldown := 15, score := 0, inputs := leftInput },
        { id := "B", index := 1, x := 0, y := 730, width := 30, height := 30, vx := 0, vy := 0, color := "c", isIt := true, isGrounded := true, facingRight := false, tagCooldown := 14, score := 0, inputs := leftInput },
        { id := "C", index := 2, x := 600, y := 730, width := 30, height := 30, vx := 0, vy := 0, color := "c", isIt := false, isGrounded := true, facingRight := true, tagCooldown := 0, score := 0, inputs := noInput } ] }

unseal Rat.ofScientific Rat.mul Rat.add Rat.sub Rat.inv in
/-- Tick 23 of the C4 run, evaluated. -/
lemma c4t23 : GameRoom.update c4s22 = c4s23 := by
  decide

/-- Exact state of the C4 run after tick 24. -/
def c4s24 : GameRoom :=
  { roomId := "R", started := true, platforms := defaultPlatforms,
    players :=
      [ { id := "A", index := 0, x := 0, y := 730, width := 30, height := 30, vx := 0, vy := 0, color := "c", isIt := false, isGrounded := true, facingRight := false, tagCooldown := 13, score := 0, inputs := leftInput },
        { id := "B", index := 1, x := 0, y := 730, width := 30, height := 30, vx := 0, vy := 0, color := "c", isIt := true, isGrounded := true, facingRight := false, tagCooldown := 12, score := 0, inputs := leftInput },
        { id := "C", index := 2, x := 600, y := 730, width := 30, height := 30, vx := 0, vy := 0, color := "c", isIt := false, isGrounded := true, facingRight := true, tagCooldown := 0, score := 0, inputs := noInput } ] }

unseal Rat.ofScientific Rat.mul Rat.add Rat.sub Rat.inv in
/-- Tick 24 of the C4 run, evaluated. -/
lemma c4t24 : GameRoom.update c4s23 = c4s24 := by
  decide

/-- Exact state of the C4 run after tick 25. -/
def c4s25 : GameRoom :=
  { roomId := "R", started := true, platforms := defaultPlatforms,
    players :=
      [ { id := "A", index := 0, x := 0, y := 730, width := 30, height := 30, vx := 0, vy := 0, color := "c", isIt := false, isGrounded := true, facingRight := false, tagCooldown := 11, score := 0, inputs := leftInput },
        { id := "B", index := 1, x := 0, y := 730, width := 30, height := 30, vx := 0, vy := 0, color := "c", isIt := true, isGrounded := true, facingRight := false, tagCooldown := 10, score := 0, inputs := leftInput },
        { id := "C", index := 2, x := 600, y := 730, width := 30, height := 30, vx := 0, vy := 0, color := "c", isIt := false, isGrounded := true, facingRight := true, tagCooldown := 0, score := 0, inputs := noInput } ] }

unseal Rat.ofScientific Rat.mul Rat.add Rat.sub Rat.inv in
/-- Tick 25 of the C4 run, evaluated. -/
lemma c4t25 : GameRoom.update c4s24 = c4s25 := by
  decide

/-- Exact state of the C4 run after tick 26. -/
def c4s26 : GameRoom :=
  { roomId := "R", started := true, platforms := defaultPlatforms,
    players :=
      [ { id := "A", index := 0, x := 0, y := 730, width := 30, height := 30, vx := 0, vy := 0, color := "c", isIt := false, isGrounded := true, facingRight := false, tagCooldown := 9, score := 0, inputs := leftInput },
        { id := "B", index := 1, x := 0, y := 730, width := 30, height := 30, vx := 0, vy := 0, color := "c", isIt := true, isGrounded := true, facingRight := false, tagCooldown := 8, score := 0, inputs := leftInput },
        { id := "C", index := 2, x := 600, y := 730, width := 30, height := 30, vx := 0, vy := 0, color := "c", isIt := false, isGrounded := true, facingRight := true, tagCooldown := 0, score := 0, inputs := noInput } ] }

unseal Rat.ofScientific Rat.mul Rat.add Rat.sub Rat.inv in
/-- Tick 26 of the C4 run, evaluated. -/
lemma c4t26 : GameRoom.update c4s25 = c4s26 := by
  decide

/-- Exact state of the C4 run after tick 27. -/
def c4s27 : GameRoom :=
  { roomId := "R", started := true, platforms := defaultPlatforms,
    players :=
      [ { id := "A", index := 0, x := 0, y := 730, width := 30, height := 30, vx := 0, vy := 0, color := "c", isIt := false, isGrounded := true, facingRight := false, tagCooldown := 7, score := 0, inputs := leftInput },
        { id := "B", index := 1, x := 0, y := 730, width := 30, height := 30, vx := 0, vy := 0, color := "c", isIt := true, isGrounded := true, facingRight := false, tagCooldown := 6, score := 0, inputs := leftInput },
        { id := "C", index := 2, x := 600, y := 730, width := 30, height := 30, vx := 0, vy := 0, color := "c", isIt := false, isGrounded := true, facingRight := true, tagCooldown := 0, score := 0, inputs := noInput } ] }

unseal Rat.ofScientific Rat.mul Rat.add Rat.sub Rat.inv in
/-- Tick 27 of the C4 run, evaluated. -/
lemma c4t27 : GameRoom.update c4s26 = c4s27 := by
  decide

/-- Exact state of the C4 run after tick 28. -/
def c4s28 : GameRoom :=
  { roomId := "R", started := true, platforms := defaultPlatforms,
    players :=
      [ { id := "A", index := 0, x := 0, y := 730, width := 30, height := 30, vx := 0, vy := 0, color := "c", isIt := false, isGrounded := true, facingRight := false, tagCooldown := 5, score := 0, inputs := leftInput },
        { id := "B", index := 1, x := 0, y := 730, width := 30, height := 30, vx := 0, vy := 0, color := "c", isIt := true, isGrounded := true, facingRight := false, tagCooldown := 4, score := 0, inputs := leftInput },
        { id := "C", index := 2, x := 600, y := 730, width := 30, height := 30, vx := 0, vy := 0, color := "c", isIt := false, isGrounded := true, facingRight := true, tagCooldown := 0, score := 0, inputs := noInput } ] }

unseal Rat.ofScientific Rat.mul Rat.add Rat.sub Rat.inv in
/-- Tick 28 of the C4 run, evaluated. -/
lemma c4t28 : GameRoom.update c4s27 = c4s28 := by
  decide

/-- Exact state of the C4 run after tick 29. -/
def c4s29 : GameRoom :=
  { roomId := "R", started := true, platforms := defaultPlatforms,
    players :=
      [ { id := "A", index := 0, x := 0, y := 730, width := 30, height := 30, vx := 0, vy := 0, color := "c", isIt := false, isGrounded := true, facingRight := false, tagCooldown := 3, score := 0, inputs := leftInput },
        { id := "B", index := 1, x := 0, y := 730, width := 30, height := 30, vx := 0, vy := 0, color := "c", isIt := true, isGrounded := true, facingRight := false, tagCooldown := 2, score := 0, inputs := leftInput },
        { id := "C", index := 2, x := 600, y := 730, width := 30, height := 30, vx := 0, vy := 0, color := "c", isIt := false, isGrounded := true, facingRight := true, tagCooldown := 0, score := 0, inputs := noInput } ] }

unseal Rat.ofScientific Rat.mul Rat.add Rat.sub Rat.inv in
/-- Tick 29 of the C4 run, evaluated. -/
lemma c4t29 : GameRoom.update c4s28 = c4s29 := by
  decide

/-- Exact state of the C4 run after tick 30. -/
def c4s30 : GameRoom :=
  { roomId := "R", started := true, platforms := defaultPlatforms,
    players :=
      [ { id := "A", index := 0, x := 0, y := 730, width := 30, height := 30, vx := 0, vy := 0, color := "c", isIt := false, isGrounded := true, facingRight := false, tagCooldown := 1, score := 0, inputs := leftInput },
        { id := "B", index := 1, x := 0, y := 730, width := 30, height := 30, vx := 0, vy := 0, color := "c", isIt := true, isGrounded := true, facingRight := false, tagCooldown := 0, score := 0, inputs := leftInput },
        { id := "C", index := 2, x := 600, y := 730, width := 30, height := 30, vx := 0, vy := 0, color := "c", isIt := false, isGrounded := true, facingRight := true, tagCooldown := 0, score := 0, inputs := noInput } ] }

unseal Rat.ofScientific Rat.mul Rat.add Rat.sub Rat.inv in
/-- Tick 30 of the C4 run, evaluated. -/
lemma c4t30 : GameRoom.update c4s29 = c4s30 := by
  decide

/-- Exact state of the C4 run after tick 31. -/
def c4s31 : GameRoom :=
  { roomId := "R", started := true, platforms := defaultPlatforms,
    players :=
      [ { id := "A", index := 0, x := 0, y := 730, width := 30, height := 30, vx := 10, vy := (-5), color := "c", isIt := true, isGrounded := true, facingRight := false, tagCooldown := 60, score := 0, inputs := leftInput },
        { id := "B", index := 1, x := 0, y := 730, width := 30, height := 30, vx := (-5), vy := 0, color := "c", isIt := false, isGrounded := true, facingRight := false, tagCooldown := 59, score := 0, inputs := leftInput },
        { id := "C", index := 2, x := 600, y := 730, width := 30, height := 30, vx := 0, vy := 0, color := "c", isIt := false, isGrounded := true, facingRight := true, tagCooldown := 0, score := 0, inputs := noInput } ] }

unseal Rat.ofScientific Rat.mul Rat.add Rat.sub Rat.inv in
/-- Tick 31 of the C4 run, evaluated. -/
lemma c4t31 : GameRoom.update c4s30 = c4s31 := by
  decide

unseal Rat.ofScientific Rat.mul Rat.add Rat.sub Rat.inv in
/-- Claim C2, refuted at the spec's own scenario: after one tick the tag has
transferred (A not It, B It) and A's cooldown is 60, but B's cooldown is 59,
not 60 - B's own iteration of the tick decrements the freshly set cooldown. -/
theorem c2_tag_flip_counterexample :
    ((c2room.update).players.map Player.isIt = [false, true]) ∧
    ((c2room.update).players.map Player.tagCooldown = [60, 59]) ∧
    ¬ ((c2room.update).players.map Player.tagCooldown = [60, 60]) := by
  refine ⟨by decide, by decide, by decide⟩

unseal Rat.ofScientific Rat.mul Rat.add Rat.sub Rat.inv in
/-- Claim C3, refuted by evaluation: in the three-player room `c3room`,
player A's cooldown of 10 drops to 8 after a single tick (the decrement sits
inside the inner per-other loop, so it runs once per other player), while the
claim predicts 9. -/
theorem c3_cooldown_code_bug :
    ((c3room.update).players.map Player.tagCooldown = [8, 0, 0]) ∧
    ¬ ((c3room.update).players.map Player.tagCooldown = [9, 0, 0]) := by
  refine ⟨by decide, by decide⟩

/-- Claim C4, refuted by evaluation: in `c4room` a tag fires on tick 1
(A loses It, B gains It, cooldowns are set to 60 and then decremented twice
within the same tick, reading 59 and 58), and after only 31 ticks a further
tag involving the same pair has fired (A is It again), far inside the claimed
60-tick exclusion window, because each cooldown is decremented once per other
player per tick. -/
theorem c4_no_double_tag_code_bug :
    ((updateN 1 c4room).players.map Player.isIt = [false, true, false]) ∧
    ((updateN 1 c4room).players.map Player.tagCooldown = [59, 58, 0]) ∧
    ((updateN 31 c4room).players.map Player.isIt = [true, false, false]) := by
  have h31 : updateN 31 c4room = c4s31 := by
    simp only [updateN, c4t1, c4t2, c4t3, c4t4, c4t5, c4t6, c4t7, c4t8, c4t9, c4t10,
      c4t11, c4t12, c4t13, c4t14, c4t15, c4t16, c4t17, c4t18, c4t19, c4t20,
      c4t21, c4t22, c4t23, c4t24, c4t25, c4t26, c4t27, c4t28, c4t29, c4t30, c4t31]
  have h1 : updateN 1 c4room = c4s1 := by simp only [updateN, c4t1]
  rw [h31, h1]
  refine ⟨by decide, by decide, by decide⟩


/-! ### Counting machinery for the single-It invariant (claim C1) -/

/-- Additive effect of `List.set` on `countP`. -/
lemma countP_set_add (f : Player → Bool) :
    ∀ (l : List Player) (i : ℕ) (a b : Player), l[i]? = some b →
      (l.set i a).countP f + (if f b then 1 else 0) = l.countP f + (if f a then 1 else 0) := by
  intro l
  induction l with
  | nil => intro i a b h; simp at h
  | cons c t ih =>
    intro i a b h
    cases i with
    | zero =>
      simp only [List.getElem?_cons_zero, Option.some.injEq] at h
      subst h
      simp only [List.set, List.countP_cons]
      omega
    | succ n =>
      simp only [List.getElem?_cons_succ] at h
      simp only [List.set, List.countP_cons]
      have := ih n a b h
      omega

/-- A `List.set` with an entry that has the same `f`-value keeps `countP`. -/
lemma countP_set_eq {f : Player → Bool} {l : List Player} {i : ℕ} {a b : Player}
    (h : l[i]? = some b) (hab : f a = f b) :
    (l.set i a).countP f = l.countP f := by
  have := countP_set_add f l i a b h
  rw [hab] at this
  omega

/-- The per-player fields that the tag logic reads: It status, identity and
cooldown, plus inputs. -/
def samePIT (q p : Player) : Prop :=
  q.isIt = p.isIt ∧ q.id = p.id ∧ q.tagCooldown = p.tagCooldown

lemma samePIT_refl (p : Player) : samePIT p p := ⟨rfl, rfl, rfl⟩

lemma samePIT_trans {p q r : Player} (h1 : samePIT r q) (h2 : samePIT q p) : samePIT r p :=
  ⟨h1.1.trans h2.1, h1.2.1.trans h2.2.1, h1.2.2.trans h2.2.2⟩

lemma leftCtrl_samePIT (p : Player) : samePIT (leftCtrl p) p := by
  unfold leftCtrl; split_ifs <;> exact ⟨rfl, rfl, rfl⟩

lemma rightCtrl_samePIT (p : Player) : samePIT (rightCtrl p) p := by
  unfold rightCtrl; split_ifs <;> exact ⟨rfl, rfl, rfl⟩

lemma jumpCtrl_samePIT (p : Player) : samePIT (jumpCtrl p) p := by
  unfold jumpCtrl; split_ifs <;> exact ⟨rfl, rfl, rfl⟩

lemma integratePhase_samePIT (p : Player) : samePIT (integratePhase p) p := by
  unfold integratePhase; exact ⟨rfl, rfl, rfl⟩

lemma boundaryPhase_samePIT (p : Player) : samePIT (boundaryPhase p) p := by
  unfold boundaryPhase; dsimp only; split_ifs <;> exact ⟨rfl, rfl, rfl⟩

lemma collideOne_samePIT (p : Player) (plat : Plat) : samePIT (collideOne p plat) p := by
  unfold collideOne; dsimp only; split_ifs <;> exact ⟨rfl, rfl, rfl⟩

lemma collideFold_samePIT : ∀ (plats : List Plat) (p : Player),
    samePIT (plats.foldl collideOne p) p := by
  intro plats
  induction plats with
  | nil => intro p; exact samePIT_refl p
  | cons a t ih =>
    intro p
    exact samePIT_trans (ih (collideOne p a)) (collideOne_samePIT p a)

lemma collidePhase_samePIT (plats : List Plat) (p : Player) :
    samePIT (collidePhase plats p) p := by
  unfold collidePhase
  exact samePIT_trans (collideFold_samePIT plats _) ⟨rfl, rfl, rfl⟩

lemma respawnPhase_samePIT (p : Player) : samePIT (respawnPhase p) p := by
  unfold respawnPhase; split_ifs <;> exact ⟨rfl, rfl, rfl⟩

/-- The physics pipeline never touches It status, identity or cooldown. -/
lemma physStep_samePIT (plats : List Plat) (p : Player) : samePIT (physStep plats p) p := by
  unfold physStep
  exact samePIT_trans (samePIT_trans (samePIT_trans (respawnPhase_samePIT _)
    (collidePhase_samePIT plats _)) (boundaryPhase_samePIT _))
    (samePIT_trans (samePIT_trans (jumpCtrl_samePIT _) (rightCtrl_samePIT _))
      (leftCtrl_samePIT p))

/-- Setting an It entry to non-It and a non-It entry to It, at distinct
positions, preserves the It count. -/
lemma countP_set_set {l : List Player} {i j : ℕ} {p0 other P1 O1 : Player}
    (hi : l[i]? = some p0) (hj : l[j]? = some other) (hij : i ≠ j)
    (h1 : p0.isIt = true) (h2 : other.isIt = false)
    (h3 : P1.isIt = false) (h4 : O1.isIt = true) :
    ((l.set i P1).set j O1).countP (fun q => q.isIt) = l.countP (fun q => q.isIt) := by
  have e1 := countP_set_add (fun q => q.isIt) l i P1 p0 hi
  have hj' : (l.set i P1)[j]? = some other := by rw [List.getElem?_set_ne hij, hj]
  have e2 := countP_set_add (fun q => q.isIt) (l.set i P1) j O1 other hj'
  simp only [h1, h2, h3, h4, if_true, if_false] at e1 e2
  omega

/-- One inner tag-loop iteration preserves the number of It players. -/
lemma tagPair_countP (l : List Player) (i j : ℕ) :
    (tagPair l i j).countP (fun p => p.isIt) = l.countP (fun p => p.isIt) := by
  unfold tagPair
  cases hi : l[i]? with
  | none => rfl
  | some p0 =>
    cases hj : l[j]? with
    | none => rfl
    | some other =>
      dsimp only
      by_cases hid : p0.id = other.id
      · rw [if_pos hid]
      · rw [if_neg hid]
        have hij : i ≠ j := by
          intro hij
          subst hij
          rw [hi] at hj
          exact hid (by injection hj with h; rw [h])
        set p : Player :=
          if p0.tagCooldown > 0 then { p0 with tagCooldown := p0.tagCooldown - 1 } else p0
          with hp
        have hpIt : p.isIt = p0.isIt := by
          rw [hp]; split_ifs <;> rfl
        have hl1 : (l.set i p).countP (fun q => q.isIt) = l.countP (fun q => q.isIt) :=
          countP_set_eq hi hpIt
        by_cases hov : playersOverlap p other
        · rw [if_pos hov]
          by_cases hcond :
              p.isIt = true ∧ other.isIt = false ∧ p.tagCooldown = 0 ∧ other.tagCooldown = 0
          · rw [if_pos hcond, List.set_set]
            exact countP_set_set hi hj hij (hpIt ▸ hcond.1) hcond.2.1 rfl rfl
          · rw [if_neg hcond]
            exact hl1
        · rw [if_neg hov]
          exact hl1

/-- The whole inner tag loop preserves the number of It players. -/
lemma tagLoop_countP (js : List ℕ) (l : List Player) (i : ℕ) :
    (js.foldl (fun acc j => tagPair acc i j) l).countP (fun p => p.isIt) =
      l.countP (fun p => p.isIt) := by
  induction js generalizing l with
  | nil => rfl
  | cons a t ih =>
    simp only [List.foldl]
    rw [ih (tagPair l i a), tagPair_countP]

/-- One outer-loop body preserves the number of It players. -/
lemma updateBody_countP (plats : List Plat) (n : ℕ) (l : List Player) (i : ℕ) :
    (updateBody plats n l i).countP (fun p => p.isIt) = l.countP (fun p => p.isIt) := by
  unfold updateBody tagLoop
  cases hi : l[i]? with
  | none => simp only [hi]; exact tagLoop_countP _ l i
  | some p =>
    simp only [hi]
    rw [tagLoop_countP]
    exact countP_set_eq hi (physStep_samePIT plats p).1

/-- Folding the outer-loop body preserves the number of It players. -/
lemma foldl_updateBody_countP (plats : List Plat) (n : ℕ) :
    ∀ (idxs : List ℕ) (l : List Player),
      (idxs.foldl (updateBody plats n) l).countP (fun p => p.isIt) =
        l.countP (fun p => p.isIt) := by
  intro idxs
  induction idxs with
  | nil => intro l; rfl
  | cons a t ih =>
    intro l
    simp only [List.foldl]
    rw [ih, updateBody_countP]

/-- A tick preserves the number of It players exactly. -/
lemma update_itCount (r : GameRoom) : itCount r.update = itCount r := by
  unfold GameRoom.update itCount
  exact foldl_updateBody_countP r.platforms _ _ r.players


/-- Inserting a non-It player never increases the It count. -/
lemma countP_setPlayer_le (l : List Player) (q : Player) (hq : q.isIt = false) :
    (setPlayer l q).countP (fun p => p.isIt) ≤ l.countP (fun p => p.isIt) := by
  induction l with
  | nil => simp [setPlayer, List.countP_cons, hq]
  | cons c t ih =>
    unfold setPlayer
    split_ifs with h
    · simp [List.countP_cons, hq]
    · simp only [List.countP_cons]
      omega

/-- Filtering never increases the It count. -/
lemma countP_filter_le (g : Player → Bool) (l : List Player) :
    (l.filter g).countP (fun p => p.isIt) ≤ l.countP (fun p => p.isIt) := by
  induction l with
  | nil => simp
  | cons c t ih =>
    by_cases h : g c
    · rw [List.filter_cons_of_pos h]
      simp only [List.countP_cons]
      omega
    · rw [List.filter_cons_of_neg h]
      simp only [List.countP_cons]
      omega

/-- Marking one position It increases the It count by at most one. -/
lemma countP_setItAt_le : ∀ (l : List Player) (n : ℕ),
    (setItAt l n).countP (fun p => p.isIt) ≤ l.countP (fun p => p.isIt) + 1 := by
  intro l
  induction l with
  | nil => intro n; simp [setItAt]
  | cons c t ih =>
    intro n
    cases n with
    | zero =>
      simp only [setItAt, List.countP_cons]
      split_ifs <;> simp
    | succ m =>
      simp only [setItAt, List.countP_cons]
      have := ih m
      omega

/-- Overwriting one player's inputs keeps the It count. -/
lemma countP_applyInput (l : List Player) (sid : String) (inp : Inputs) :
    (l.map (fun p => if p.id = sid then { p with inputs := inp } else p)).countP
        (fun p => p.isIt) = l.countP (fun p => p.isIt) := by
  induction l with
  | nil => rfl
  | cons c t ih =>
    simp only [List.map, List.countP_cons, ih]
    split_ifs <;> rfl

/-- The invariant maintained by every room operation: at most one player is
It, and an unstarted room has no It player at all. -/
def RoomInv (r : GameRoom) : Prop :=
  itCount r ≤ 1 ∧ (r.started = false → itCount r = 0)

/-- Every room operation preserves the invariant. -/
lemma roomInv_applyOp {r : GameRoom} (h : RoomInv r) (op : RoomOp) :
    RoomInv (applyOp r op) := by
  obtain ⟨h1, h2⟩ := h
  cases op with
  | add sid =>
    show RoomInv (r.addPlayer sid).2
    unfold GameRoom.addPlayer
    dsimp only
    split_ifs with hfull
    · exact ⟨h1, h2⟩
    · have hle := countP_setPlayer_le r.players (newPlayer sid r.players.length) rfl
      constructor
      · unfold itCount at h1 ⊢
        dsimp only
        omega
      · intro hst
        have := h2 hst
        unfold itCount at this ⊢
        dsimp only
        omega
  | remove sid =>
    show RoomInv (r.removePlayer sid)
    unfold GameRoom.removePlayer
    dsimp only
    have hle := countP_filter_le (fun p => decide (p.id ≠ sid)) r.players
    split_ifs with hlen
    · constructor
      · unfold itCount at h1 ⊢
        dsimp only
        omega
      · intro _
        unfold itCount
        dsimp only
        rw [List.length_eq_zero] at hlen
        rw [hlen]
        rfl
    · constructor
      · unfold itCount at h1 ⊢
        dsimp only
        omega
      · intro hst
        have := h2 hst
        unfold itCount at this ⊢
        dsimp only
        omega
  | start k =>
    show RoomInv (r.startGame k)
    unfold GameRoom.startGame
    dsimp only
    split_ifs with hst hpos
    · exact ⟨h1, h2⟩
    · have hstf : r.started = false := by simpa using hst
      have hz := h2 hstf
      have hle := countP_setItAt_le r.players (k % r.players.length)
      constructor
      · unfold itCount at hz ⊢
        dsimp only
        omega
      · intro hcontra
        simp at hcontra
    · have hstf : r.started = false := by simpa using hst
      have hz := h2 hstf
      constructor
      · unfold itCount at hz ⊢
        dsimp only
        omega
      · intro hcontra
        simp at hcontra
  | input sid inp =>
    show RoomInv (r.applyInput sid inp)
    unfold GameRoom.applyInput
    have he := countP_applyInput r.players sid inp
    constructor
    · unfold itCount at h1 ⊢
      dsimp only
      omega
    · intro hst
      have := h2 hst
      unfold itCount at this ⊢
      dsimp only
      omega
  | tick =>
    show RoomInv r.update
    have he := update_itCount r
    have hst : r.update.started = r.started := rfl
    constructor
    · omega
    · intro h3
      rw [hst] at h3
      have := h2 h3
      omega

/-- The invariant holds along every operation sequence. -/
lemma roomInv_runOps {r : GameRoom} (h : RoomInv r) (ops : List RoomOp) :
    RoomInv (runOps r ops) := by
  induction ops generalizing r with
  | nil => exact h
  | cons a t ih => exact ih (roomInv_applyOp h a)


unseal Rat.ofScientific Rat.mul Rat.add Rat.sub Rat.inv in
/-- Claim C1, refuted on a concrete operation sequence: create a room, join
A and B, start (picking A as It), then let A disconnect.  The room is still
started with one player, but no player is It: the It count is 0, not
`min 1 playerCount = 1`. -/
theorem c1_single_it_counterexample :
    ((runOps (mkRoom "GAME")
        [RoomOp.add "A", RoomOp.add "B", RoomOp.start 0, RoomOp.remove "A"]).started = true) ∧
    ((runOps (mkRoom "GAME")
        [RoomOp.add "A", RoomOp.add "B", RoomOp.start 0, RoomOp.remove "A"]).players.length = 1) ∧
    (itCount (runOps (mkRoom "GAME")
        [RoomOp.add "A", RoomOp.add "B", RoomOp.start 0, RoomOp.remove "A"]) = 0) := by
  refine ⟨by decide, by decide, by decide⟩

/-- Claim C1 amended: along every operation sequence from a fresh room, the
number of It players is at most `min 1 playerCount` (removal of the It player
can leave a started, non-empty room with zero It players, so equality fails). -/
theorem c1_single_it_amended (code : String) (ops : List RoomOp) :
    itCount (runOps (mkRoom code) ops) ≤
      min 1 (runOps (mkRoom code) ops).players.length := by
  have h0 : RoomInv (mkRoom code) := by
    constructor
    · show itCount (mkRoom code) ≤ 1
      unfold itCount mkRoom
      simp
    · intro _
      rfl
  have h := roomInv_runOps h0 ops
  refine le_min h.1 ?_
  unfold itCount
  exact List.countP_le_length _


/-! ### Claims C5 and C6: the kinematic update and the collision resolution,
compared against definitions that follow the claims' wording. -/

/-- The per-player kinematic update exactly as claim C5 words it: if left is
held, `vx -= 0.8` and `facingRight := false`; if right is held, `vx += 0.8`
and `facingRight := true`; if up is held while grounded, `vy := -15` and
`isGrounded := false`; then `vy += 0.6`, then `vx *= 0.85`, then `vx` is
clamped to the interval `[-6, 6]`, then `x += vx`, then `y += vy`. -/
def c5KinematicsSpec (p : Player) : Player :=
  let a1 := if p.inputs.left then { p with vx := p.vx - 0.8, facingRight := false } else p
  let a2 := if a1.inputs.right then { a1 with vx := a1.vx + 0.8, facingRight := true } else a1
  let a3 := if a2.inputs.up ∧ a2.isGrounded = true then { a2 with vy := -15, isGrounded := false }
            else a2
  let vyNew := a3.vy + 0.6
  let vxNew := max (-6) (min 6 (a3.vx * 0.85))
  { a3 with vy := vyNew, vx := vxNew, x := a3.x + vxNew, y := a3.y + vyNew }

/-- The source's sequential clamp (cap above, then cap below) is the interval
clamp of claim C5. -/
lemma clampSeq_eq_maxmin (v : ℚ) :
    (if (if v > 6 then (6:ℚ) else v) < -6 then (-6:ℚ) else (if v > 6 then 6 else v)) =
      max (-6) (min 6 v) := by
  by_cases h1 : v > 6
  · rw [if_pos h1]
    rw [if_neg (by norm_num : ¬ (6:ℚ) < -6)]
    rw [min_eq_left h1.le, max_eq_right (by norm_num : (-6:ℚ) ≤ 6)]
  · rw [if_neg h1]
    rw [min_eq_right (le_of_not_lt h1)]
    by_cases h2 : v < -6
    · rw [if_pos h2, max_eq_left h2.le]
    · rw [if_neg h2, max_eq_right (le_of_not_lt h2)]

/-- The control-plus-integration portion of the tick equals claim C5's
composition. -/
lemma ctrl_integrate_eq_c5Spec (p : Player) :
    integratePhase (controlPhase p) = c5KinematicsSpec p := by
  unfold integratePhase controlPhase jumpCtrl rightCtrl leftCtrl c5KinematicsSpec
  simp only [MOVE_SPEED, GRAVITY, FRICTION, JUMP_FORCE]
  obtain ⟨pid, pidx, px, py, pw, ph, pvx, pvy, pc, pit, pg, pf, pcd, psc, pin⟩ := p
  obtain ⟨iu, idn, il, ir⟩ := pin
  cases il <;> cases ir <;> cases iu <;> cases pg <;>
    simp only [Bool.and_self, Bool.and_true, Bool.and_false, Bool.true_and, Bool.false_and,
      Bool.false_eq_true, and_self, and_true, true_and, false_and, and_false,
      if_true, if_false, ite_true, ite_false, ite_self, Bool.true_eq_false, not_false_iff,
      reduceIte] <;>
    rw [clampSeq_eq_maxmin]

/-- Claim C5: each tick applies, per player, exactly the claimed kinematic
sequence with the claimed constants, followed by the world bounds, platform
collision and respawn phases of the source. -/
theorem c5_kinematics_confirmed (plats : List Plat) (p : Player) :
    physStep plats p =
      respawnPhase (collidePhase plats (boundaryPhase (c5KinematicsSpec p))) := by
  unfold physStep
  rw [ctrl_integrate_eq_c5Spec]

/-- Collision resolution against one platform exactly as claim C6 words it:
for an overlapping platform, resolution happens along the axis of minimum
penetration among the four side penetration depths - landing on top only when
`vy ≥ 0` (snap to platform top minus player height, `vy` zeroed, `isGrounded`
set), hitting the underside only when `vy < 0` (`vy` zeroed, snap below), and
otherwise a horizontal push-out with `vx` zeroed. -/
def c6ResolveSpec (p : Player) (plat : Plat) : Player :=
  if platOverlap p plat then
    let penL := p.x + p.width - plat.x
    let penR := plat.x + plat.width - p.x
    let penT := p.y + p.height - plat.y
    let penB := plat.y + plat.height - p.y
    let m := min penL (min penR (min penT penB))
    if m = penT then
      (if p.vy ≥ 0 then { p with y := plat.y - p.height, vy := 0, isGrounded := true } else p)
    else if m = penB then
      (if p.vy < 0 then { p with y := plat.y + plat.height, vy := 0 } else p)
    else if m = penL then { p with x := plat.x - p.width, vx := 0 }
    else { p with x := plat.x + plat.width, vx := 0 }
  else p

/-- The collision phase exactly as claim C6 words it: `isGrounded` reset
first, then every platform resolved sequentially in iteration order. -/
def c6CollideSpec (plats : List Plat) (p : Player) : Player :=
  plats.foldl c6ResolveSpec { p with isGrounded := false }

/-- Per-platform resolution of the source equals claim C6's description. -/
lemma collideOne_eq_c6Spec (p : Player) (plat : Plat) :
    collideOne p plat = c6ResolveSpec p plat := by
  unfold collideOne c6ResolveSpec
  dsimp only
  by_cases hov : platOverlap p plat
  · rw [if_pos hov, if_pos hov, min_assoc]
    set m := min (p.x + p.width - plat.x)
        (min (plat.x + plat.width - p.x)
          (min (p.y + p.height - plat.y) (plat.y + plat.height - p.y))) with hm
    by_cases hT : m = p.y + p.height - plat.y
    · rw [if_pos hT, if_pos hT]
    · rw [if_neg hT, if_neg hT]
      by_cases hB : m = plat.y + plat.height - p.y
      · rw [if_pos hB, if_pos hB]
      · rw [if_neg hB, if_neg hB]
        by_cases hL : m = p.x + p.width - plat.x
        · rw [if_pos hL, if_pos hL]
        · rw [if_neg hL, if_neg hL]
          have hcases : m = p.x + p.width - plat.x ∨ m = plat.x + plat.width - p.x ∨
              m = p.y + p.height - plat.y ∨ m = plat.y + plat.height - p.y := by
            rw [hm]
            rcases min_cases (p.x + p.width - plat.x)
                (min (plat.x + plat.width - p.x)
                  (min (p.y + p.height - plat.y) (plat.y + plat.height - p.y))) with
              ⟨h, _⟩ | ⟨h, _⟩
            · exact Or.inl h
            · rw [h]
              rcases min_cases (plat.x + plat.width - p.x)
                  (min (p.y + p.height - plat.y) (plat.y + plat.height - p.y)) with
                ⟨h2, _⟩ | ⟨h2, _⟩
              · exact Or.inr (Or.inl h2)
              · rw [h2]
                rcases min_cases (p.y + p.height - plat.y) (plat.y + plat.height - p.y) with
                  ⟨h3, _⟩ | ⟨h3, _⟩
                · exact Or.inr (Or.inr (Or.inl h3))
                · exact Or.inr (Or.inr (Or.inr h3))
          have hR : m = plat.x + plat.width - p.x := by tauto
          rw [if_pos hR]
  · rw [if_neg hov, if_neg hov]

/-- Claim C6: the collision phase of the tick equals claim C6's description. -/
theorem c6_collision_confirmed (plats : List Plat) (p : Player) :
    collidePhase plats p = c6CollideSpec plats p := by
  unfold collidePhase c6CollideSpec
  have h : collideOne = c6ResolveSpec :=
    funext fun q => funext fun plat => collideOne_eq_c6Spec q plat
  rw [h]


/-! ### Claims C8, C9, C10: the registry handlers and slot assignment -/

/-- Looking up the key just stored. -/
lemma regGet_regSet_self (reg : Registry) (c : String) (g : GameRoom) :
    regGet (regSet reg c g) c = some g := by
  induction reg with
  | nil => simp [regSet, regGet]
  | cons e rest ih =>
    obtain ⟨c', g'⟩ := e
    by_cases h : c' = c
    · subst h
      simp [regSet, regGet]
    · simp only [regSet, if_neg h, regGet]
      exact ih

/-- Storing twice under the same key keeps only the second room. -/
lemma regSet_regSet (reg : Registry) (c : String) (g g' : GameRoom) :
    regSet (regSet reg c g) c g' = regSet reg c g' := by
  induction reg with
  | nil => simp [regSet]
  | cons e rest ih =>
    obtain ⟨c0, g0⟩ := e
    by_cases h : c0 = c
    · subst h
      simp [regSet]
    · simp only [regSet, if_neg h]
      rw [ih]

/-- Inserting a player whose id is fresh appends it. -/
lemma setPlayer_fresh (l : List Player) (q : Player) (h : ∀ p ∈ l, p.id ≠ q.id) :
    setPlayer l q = l ++ [q] := by
  induction l with
  | nil => rfl
  | cons c t ih =>
    unfold setPlayer
    rw [if_neg (h c (List.mem_cons_self c t))]
    rw [ih (fun p hp => h p (List.mem_cons_of_mem c hp))]
    rfl

/-- The helper `setItAt` only changes the It flag: ids and slot indices are unchanged. -/
lemma setItAt_map_id_index : ∀ (l : List Player) (n : ℕ),
    (setItAt l n).map (fun p => (p.id, p.index)) = l.map (fun p => (p.id, p.index)) := by
  intro l
  induction l with
  | nil => intro n; rfl
  | cons c t ih =>
    intro n
    cases n with
    | zero => simp [setItAt]
    | succ m =>
      simp only [setItAt, List.map]
      rw [ih m]


/-- The It-pick inside `startGame` (triggered by auto-start on join) changes
no player's id or slot index. -/
lemma startGame_players_map (r : GameRoom) (k : ℕ) :
    (r.startGame k).players.map (fun p => (p.id, p.index)) =
      r.players.map (fun p => (p.id, p.index)) := by
  unfold GameRoom.startGame
  dsimp only
  split_ifs with h1 h2
  · rfl
  · exact setItAt_map_id_index r.players _
  · rfl

/-- Calling `addPlayer` on a non-full room with a fresh connection id appends the new
player at slot `playerCount`. -/
lemma addPlayer_players (r : GameRoom) (sid : String) (hlen : r.players.length < 4)
    (hfresh : ∀ p ∈ r.players, p.id ≠ sid) :
    (r.addPlayer sid).2.players = r.players ++ [newPlayer sid r.players.length] := by
  unfold GameRoom.addPlayer
  rw [if_neg (by omega)]
  exact setPlayer_fresh r.players _ (fun p hp => hfresh p hp)

/-- A room that is already at the four-player cap. -/
def c8fullRoom : GameRoom :=
  { roomId := "FULL",
    players := [newPlayer "p0" 0, newPlayer "p1" 1, newPlayer "p2" 2, newPlayer "p3" 3],
    platforms := defaultPlatforms, started := false }

/-- A registry holding only the full room. -/
def c8fullReg : Registry := [("FULL", c8fullRoom)]

/-- The room after join A, join B, remove A: slot 0 is unoccupied but the
player count is 1. -/
def c8gapRoom : GameRoom :=
  ((((mkRoom "GAPS").addPlayer "A").2.addPlayer "B").2.removePlayer "A")

unseal Rat.ofScientific Rat.mul Rat.add Rat.sub Rat.inv in
/-- Claim C8, refuted: joining a missing room and joining a full room surface
the very same error event (the single string "Room not found or full"), so the
two user-facing errors are not distinct; and after join A, join B, remove A,
the next join is placed at slot index 1 even though slot 0 is free. -/
theorem c8_join_errors_counterexample :
    ((joinRoom [] "ZZZZ" "s9" 0).1 = JoinOutcome.err "Room not found or full") ∧
    ((joinRoom c8fullReg "FULL" "s9" 0).1 = JoinOutcome.err "Room not found or full") ∧
    ((joinRoom [] "ZZZZ" "s9" 0).1 = (joinRoom c8fullReg "FULL" "s9" 0).1) ∧
    (((c8gapRoom.addPlayer "C").1.map Player.index) = some 1) ∧
    (∀ p ∈ c8gapRoom.players, p.index ≠ 0) := by
  refine ⟨by decide, by decide, by decide, by decide, by decide⟩

/-- Claim C8 amended: a missing room and a full room both yield the same
single error string "Room not found or full" (not two distinct errors) with
the registry unchanged - in particular a full room's player set is never
mutated - and otherwise the player is added at slot index equal to the current
player count (which, after removals, need not be a free slot). -/
theorem c8_join_errors_amended :
    (∀ (reg : Registry) (code sid : String) (k : ℕ),
      regGet reg code = none →
        joinRoom reg code sid k = (JoinOutcome.err "Room not found or full", reg)) ∧
    (∀ (reg : Registry) (code sid : String) (k : ℕ) (room : GameRoom),
      regGet reg code = some room → 4 ≤ room.players.length →
        joinRoom reg code sid k = (JoinOutcome.err "Room not found or full", reg)) ∧
    (∀ (reg : Registry) (code sid : String) (k : ℕ) (room : GameRoom),
      regGet reg code = some room → room.players.length < 4 →
      (∀ p ∈ room.players, p.id ≠ sid) →
        (joinRoom reg code sid k).1 = JoinOutcome.joined code ∧
        ∃ room', regGet (joinRoom reg code sid k).2 code = some room' ∧
          room'.players.map (fun p => (p.id, p.index)) =
            room.players.map (fun p => (p.id, p.index)) ++
              [(sid, room.players.length)]) := by
  refine ⟨?_, ?_, ?_⟩
  · intro reg code sid k hget
    unfold joinRoom
    rw [hget]
  · intro reg code sid k room hget hfull
    unfold joinRoom
    rw [hget]
    dsimp only
    rw [if_neg (by omega)]
  · intro reg code sid k room hget hlt hfresh
    unfold joinRoom
    rw [hget]
    dsimp only
    rw [if_pos hlt]
    refine ⟨rfl, ?_⟩
    refine ⟨_, regGet_regSet_self reg code _, ?_⟩
    have h1 : (room.addPlayer sid).2.players =
        room.players ++ [newPlayer sid room.players.length] :=
      addPlayer_players room sid hlt hfresh
    split_ifs with h2
    · rw [startGame_players_map, h1, List.map_append]
      rfl
    · rw [h1, List.map_append]
      rfl

unseal Rat.ofScientific Rat.mul Rat.add Rat.sub Rat.inv in
/-- Witness for `c8_join_errors_amended` at concrete inputs: the empty
registry with an unknown code, the full room, and the gap room. -/
theorem c8_join_errors_amended_witness :
    (joinRoom [] "ZZZZ" "s9" 0 = (JoinOutcome.err "Room not found or full", [])) ∧
    (joinRoom c8fullReg "FULL" "s9" 0 = (JoinOutcome.err "Room not found or full", c8fullReg)) ∧
    ((joinRoom [("GAPS", c8gapRoom)] "GAPS" "C" 0).1 = JoinOutcome.joined "GAPS" ∧
      ∃ room', regGet (joinRoom [("GAPS", c8gapRoom)] "GAPS" "C" 0).2 "GAPS" = some room' ∧
        room'.players.map (fun p => (p.id, p.index)) =
          c8gapRoom.players.map (fun p => (p.id, p.index)) ++
            [("C", c8gapRoom.players.length)]) := by
  refine ⟨c8_join_errors_amended.1 [] "ZZZZ" "s9" 0 (by decide),
    c8_join_errors_amended.2.1 c8fullReg "FULL" "s9" 0 c8fullRoom (by decide) (by decide),
    c8_join_errors_amended.2.2 [("GAPS", c8gapRoom)] "GAPS" "C" 0 c8gapRoom
      (by decide) (by decide) (by decide)⟩

/-- A registry already holding a two-player room under code "ABCD". -/
def c9oldRoom : GameRoom :=
  (((mkRoom "ABCD").addPlayer "u1").2.addPlayer "u2").2

/-- The registry before the colliding `createRoom` call. -/
def c9reg : Registry := [("ABCD", c9oldRoom)]

unseal Rat.ofScientific Rat.mul Rat.add Rat.sub Rat.inv in
/-- Claim C9, refuted: when the random draw produces the digits "abcd",
`createRoom` returns "ABCD" even though that code is in use (no retry), and
the existing two-player room is silently replaced by the fresh one-player
room; moreover the draw 0.5 (base-36 "0.i") yields the one-character code
"I", not four characters. -/
theorem c9_create_room_counterexample :
    ((createRoom c9reg ['a', 'b', 'c', 'd'] "s9").1 = "ABCD") ∧
    ((regGet c9reg "ABCD").map (fun g => g.players.length) = some 2) ∧
    ((regGet (createRoom c9reg ['a', 'b', 'c', 'd'] "s9").2 "ABCD").map
        (fun g => g.players.length) = some 1) ∧
    ((generateRoomId ['i']).length = 1) := by
  refine ⟨by decide, by decide, by decide, by decide⟩

/-- Claim C9 amended: `createRoom` registers a fresh room (holding only the
creating connection at slot 0) under the generated code and returns that
code; the code is the uppercased first-at-most-four base-36 fraction digits
of the random draw - so at most 4 characters, possibly fewer - and no
uniqueness check is performed: a collision silently replaces the room already
stored under that code. -/
theorem c9_create_room_amended (reg : Registry) (digits : List Char) (sid : String) :
    ((createRoom reg digits sid).1 = generateRoomId digits) ∧
    ((createRoom reg digits sid).2 =
      regSet reg (generateRoomId digits)
        { mkRoom (generateRoomId digits) with players := [newPlayer sid 0] }) ∧
    ((generateRoomId digits).toList = (digits.take 4).map Char.toUpper) ∧
    ((generateRoomId digits).length ≤ 4) := by
  refine ⟨rfl, ?_, rfl, ?_⟩
  · unfold createRoom
    dsimp only
    rw [regSet_regSet]
    rfl
  · show ((digits.take 4).map Char.toUpper).length ≤ 4
    rw [List.length_map, List.length_take]
    omega

/-- The room after join A, join B, remove A, join C: B and C share slot 1. -/
def c10room : GameRoom :=
  runOps (mkRoom "ROOM") [RoomOp.add "A", RoomOp.add "B", RoomOp.remove "A", RoomOp.add "C"]

unseal Rat.ofScientific Rat.mul Rat.add Rat.sub Rat.inv in
/-- Claim C10, confirmed: `addPlayer` always assigns slot index, colour and
spawn x from the player count at the moment of joining, and consequently the
sequence join A, join B, remove A, join C leaves two simultaneously present
players (B and C) with the same slot index 1 and the same colour. -/
theorem c10_slot_reuse_confirmed :
    (∀ (r : GameRoom) (sid : String), r.players.length < 4 →
      ((r.addPlayer sid).1.map (fun p => (p.index, p.color, p.x))) =
        some (r.players.length, COLORS.getD r.players.length "",
          100 + (r.players.length : ℚ) * 100)) ∧
    ((c10room.players.map (fun p => (p.id, p.index, p.color))) =
      [("B", 1, "#22c55e"), ("C", 1, "#22c55e")]) := by
  constructor
  · intro r sid hlen
    unfold GameRoom.addPlayer
    rw [if_neg (by omega)]
    rfl
  · decide

unseal Rat.ofScientific Rat.mul Rat.add Rat.sub Rat.inv in
/-- Witness for `c10_slot_reuse_confirmed` at a concrete input: adding the
first player to a fresh room assigns slot 0, the first palette colour and
spawn x = 100. -/
theorem c10_slot_reuse_witness :
    ((mkRoom "W").players.length < 4) ∧
    (((mkRoom "W").addPlayer "A").1.map (fun p => (p.index, p.color, p.x)) =
      some ((mkRoom "W").players.length, COLORS.getD (mkRoom "W").players.length "",
        100 + ((mkRoom "W").players.length : ℚ) * 100)) := by
  exact ⟨by decide, c10_slot_reuse_confirmed.1 (mkRoom "W") "A" (by decide)⟩


/-! ### Claim C2: the general one-tick tag-transfer theorem -/

/-- The self-skip of the inner tag loop. -/
lemma tagPair_self (l : List Player) (i : ℕ) : tagPair l i i = l := by
  unfold tagPair
  cases h : l[i]? with
  | none => rfl
  | some p =>
    dsimp only
    rw [if_pos rfl]

/-- The separation direction the tag impulse uses
(`Math.sign(other.x - p.x) || 1`). -/
def c2dir (A1 B : Player) : ℚ :=
  if jsSign (B.x - A1.x) = 0 then 1 else jsSign (B.x - A1.x)

/-- The tagger right after the transfer. -/
def c2tagger (A1 B : Player) : Player :=
  { A1 with isIt := false, vx := -c2dir A1 B * 5, tagCooldown := TAG_COOLDOWN_FRAMES }

/-- The tagged player right after the transfer. -/
def c2tagged (A1 B : Player) : Player :=
  { B with isIt := true, vx := c2dir A1 B * 10, vy := -5, tagCooldown := TAG_COOLDOWN_FRAMES }

/-- A player after the one cooldown decrement its own iteration performs. -/
def c2after (q : Player) : Player := { q with tagCooldown := q.tagCooldown - 1 }

/-- Claim C2 amended: in a two-player room where A is It, both cooldowns are
zero, and the boxes still overlap when A's tag check runs (A has already
moved, B has not), one tick transfers It from A to B, leaves A's cooldown at
60 but B's at 59 (B's own iteration decrements the freshly set value within
the same tick), and applies the separating impulse: A's final `vx` is
`-d * 5` for the separation direction `d ∈ {1, -1}`. -/
theorem c2_tag_flip_amended (A B : Player) (r : GameRoom)
    (hps : r.players = [A, B]) (hid : A.id ≠ B.id)
    (hA : A.isIt = true) (hB : B.isIt = false)
    (hAcd : A.tagCooldown = 0) (hBcd : B.tagCooldown = 0)
    (hov : playersOverlap (physStep r.platforms A) B) :
    ∃ A' B', (r.update).players = [A', B'] ∧
      A'.isIt = false ∧ B'.isIt = true ∧
      A'.tagCooldown = 60 ∧ B'.tagCooldown = 59 ∧
      ∃ d : ℚ, (d = 1 ∨ d = -1) ∧ A'.vx = -d * 5 := by
  obtain ⟨rid, ps, plats, st⟩ := r
  simp only at hps hov
  subst hps
  have hspA := physStep_samePIT plats A
  have hbody0 : updateBody plats ([A, B] : List Player).length [A, B] 0 =
      [c2tagger (physStep plats A) B, c2tagged (physStep plats A) B] := by
    unfold updateBody tagLoop
    simp only [show List.range ([A, B] : List Player).length = [0, 1] from rfl]
    simp only [List.getElem?_cons_zero]
    try dsimp only
    try simp only [List.set_cons_zero]
    simp only [List.foldl_cons, List.foldl_nil]
    rw [tagPair_self]
    unfold tagPair
    simp only [List.getElem?_cons_zero, List.getElem?_cons_succ]
    try dsimp only
    rw [if_neg (show ¬ (physStep plats A).id = B.id from by
      rw [hspA.2.1]; exact hid)]
    rw [if_neg (show ¬ (physStep plats A).tagCooldown > 0 from by
      rw [hspA.2.2, hAcd]; norm_num)]
    simp only [List.set_cons_zero]
    rw [if_pos hov]
    rw [if_pos ⟨hspA.1.trans hA, hB, hspA.2.2.trans hAcd, hBcd⟩]
    simp only [List.set_cons_zero, List.set_cons_succ]
    unfold c2tagger c2tagged c2dir
    rfl
  have hspB := physStep_samePIT plats (c2tagged (physStep plats A) B)
  have hB3cd : (physStep plats (c2tagged (physStep plats A) B)).tagCooldown = 60 :=
    hspB.2.2.trans rfl
  have hbody1 : updateBody plats ([A, B] : List Player).length
      [c2tagger (physStep plats A) B, c2tagged (physStep plats A) B] 1 =
      [c2tagger (physStep plats A) B,
        c2after (physStep plats (c2tagged (physStep plats A) B))] := by
    unfold updateBody tagLoop
    simp only [show List.range ([A, B] : List Player).length = [0, 1] from rfl]
    simp only [List.getElem?_cons_zero, List.getElem?_cons_succ]
    try dsimp only
    try simp only [List.set_cons_zero, List.set_cons_succ]
    simp only [List.foldl_cons, List.foldl_nil]
    rw [tagPair_self]
    unfold tagPair
    simp only [List.getElem?_cons_zero, List.getElem?_cons_succ]
    try dsimp only
    rw [if_neg (show ¬ (physStep plats (c2tagged (physStep plats A) B)).id =
        (c2tagger (physStep plats A) B).id from by
      rw [hspB.2.1]
      show ¬ (c2tagged (physStep plats A) B).id = (c2tagger (physStep plats A) B).id
      unfold c2tagged c2tagger
      dsimp only
      rw [hspA.2.1]
      exact fun h => hid h.symm)]
    rw [if_pos (show (physStep plats (c2tagged (physStep plats A) B)).tagCooldown > 0 from by
      rw [hB3cd]; norm_num)]
    try dsimp only
    try simp only [List.set_cons_zero, List.set_cons_succ]
    rw [if_neg (show ¬ ((physStep plats (c2tagged (physStep plats A) B)).isIt = true ∧
        (c2tagger (physStep plats A) B).isIt = false ∧
        (physStep plats (c2tagged (physStep plats A) B)).tagCooldown - 1 = 0 ∧
        (c2tagger (physStep plats A) B).tagCooldown = 0) from fun hc => by
      rw [hB3cd] at hc
      exact absurd hc.2.2.1 (by norm_num))]
    rw [ite_self]
    unfold c2after
    rfl
  refine ⟨c2tagger (physStep plats A) B,
    c2after (physStep plats (c2tagged (physStep plats A) B)), ?_, rfl, ?_, rfl, ?_, ?_⟩
  · show (GameRoom.update ⟨rid, [A, B], plats, st⟩).players = _
    unfold GameRoom.update
    dsimp only
    simp only [show List.range ([A, B] : List Player).length = [0, 1] from rfl]
    simp only [List.foldl_cons, List.foldl_nil]
    rw [hbody0, hbody1]
  · show (physStep plats (c2tagged (physStep plats A) B)).isIt = true
    exact hspB.1.trans rfl
  · show (physStep plats (c2tagged (physStep plats A) B)).tagCooldown - 1 = 59
    rw [hB3cd]
  · refine ⟨c2dir (physStep plats A) B, ?_, rfl⟩
    unfold c2dir jsSign
    by_cases h1 : B.x - (physStep plats A).x > 0
    · left
      rw [if_pos h1]
      rw [if_neg (by norm_num : ¬ (1:ℚ) = 0)]
    · rw [if_neg h1]
      by_cases h2 : B.x - (physStep plats A).x < 0
      · right
        rw [if_pos h2]
        rw [if_neg (by norm_num : ¬ (-1:ℚ) = 0)]
      · left
        rw [if_neg h2]
        rw [if_pos rfl]


unseal Rat.ofScientific Rat.mul Rat.add Rat.sub Rat.inv in
/-- Witness for `c2_tag_flip_amended` at the concrete scenario room
`c2room` (both players stationary mid-air at (100, 100), A It). -/
theorem c2_tag_flip_amended_witness :
    ∃ A' B', (c2room.update).players = [A', B'] ∧
      A'.isIt = false ∧ B'.isIt = true ∧
      A'.tagCooldown = 60 ∧ B'.tagCooldown = 59 ∧
      ∃ d : ℚ, (d = 1 ∨ d = -1) ∧ A'.vx = -d * 5 :=
  c2_tag_flip_amended (mkTestPlayer "A" 0 100 100 true 0 noInput)
    (mkTestPlayer "B" 1 100 100 false 0 noInput) c2room rfl
    (by decide) rfl rfl rfl rfl (by decide)

end TagGame
